import Mathlib

/-!
Verification of the clawd-presence repository (scripts/configure.py,
scripts/status.py, scripts/display.py) against its natural-language
specification.

The three tools communicate through two small JSON documents on disk.
JSON objects are embedded as association lists over a small value type;
Python dictionary reads with defaults (`dict.get`), key assignment and
`dict.update` are embedded explicitly.  Timestamps and other JSON numbers
are embedded as integers (the code stores floating-point Unix timestamps;
no claim depends on fractional seconds), and the per-state animation
coefficients as exact rationals.  Filesystem reads are
embedded as an explicit outcome type (`FileRead`) covering the error
cases the code distinguishes; writes are embedded as the produced file
content.
-/

/-- JSON scalar values occurring in the two documents: strings and numbers
(timestamps, timeouts, hours, color pair indices). -/
inductive JValue where
  | s (v : String)
  | n (v : Int)
deriving DecidableEq, Repr

/-- Embedding of a Python dict with string keys: an association list whose
key order is insertion order, with unique keys maintained by `pset`. -/
abbrev Dict := List (String × JValue)

/-- Lookup of a key in an association list (first match), the embedding of
Python `d[k]` / `k in d`. -/
def plookup {α : Type} : List (String × α) → String → Option α
  | [], _ => none
  | (k, v) :: rest, key => if k = key then some v else plookup rest key

/-- Embedding of Python `d.get(k, dflt)`. -/
def pgetD {α : Type} (m : List (String × α)) (key : String) (dflt : α) : α :=
  (plookup m key).getD dflt

/-- Embedding of Python `d[k] = v`: replace the first binding of `k` in
place, or append a new binding at the end. -/
def pset {α : Type} : List (String × α) → String → α → List (String × α)
  | [], key, v => [(key, v)]
  | (k, w) :: rest, key, v =>
      if k = key then (key, v) :: rest else (k, w) :: pset rest key v

/-- Embedding of Python `d.update(other)`: assign every binding of `other`
into `d`, in order. -/
def pupdate {α : Type} (d other : List (String × α)) : List (String × α) :=
  other.foldl (fun acc kv => pset acc kv.1 kv.2) d

/-- Numeric view of an optional JSON value with a default, used to embed
`d.get(k, dflt)` where the code then treats the value as a number.  A
non-numeric value defaults as well; the Python code would instead raise a
TypeError on the later comparison, so every theorem below restricts to
documents whose fields are well-typed. -/
def jnumD (v : Option JValue) (dflt : Int) : Int :=
  match v with
  | some (.n q) => q
  | _ => dflt

/-- String view of an optional JSON value with a default, used to embed
`d.get(k, dflt)` where the code treats the value as a string. -/
def jstrD (v : Option JValue) (dflt : String) : String :=
  match v with
  | some (.s t) => t
  | _ => dflt

/-- Outcome of opening and parsing a JSON file, the distinctions made by
`load_json_file` in scripts/display.py (and the duplicated `load_config`
in scripts/configure.py): the file may be missing, unreadable
(IOError/OSError), unparsable (JSONDecodeError, which covers the empty
file), parsable but not a JSON object, or a JSON object. -/
inductive FileRead where
  | missing
  | ioError
  | invalidJson
  | jsonNonObject
  | jsonObject (d : Dict)
deriving DecidableEq, Repr

/-- Embedding of `load_json_file(filepath, default)` from
scripts/display.py: a missing file, a read error, invalid JSON, or a
non-object document all fall back to a copy of the defaults; a JSON
object is merged over a copy of the defaults with `result.update(data)`. -/
def load_json_file (fr : FileRead) (default : Dict) : Dict :=
  match fr with
  | .missing => default
  | .ioError => default
  | .invalidJson => default
  | .jsonNonObject => default
  | .jsonObject data => pupdate default data

/-- DEFAULT_CONFIG from scripts/display.py and scripts/configure.py. -/
def DEFAULT_CONFIG : Dict :=
  [("letter", .s "A"), ("name", .s "AGENT"), ("idle_timeout", .n 300)]

/-- DEFAULT_STATE from scripts/display.py. -/
def DEFAULT_STATE : Dict :=
  [("state", .s "idle"), ("message", .s ""), ("updated", .n 0)]

/-! Lemmas about the dictionary embedding. -/

theorem plookup_pset_self {α : Type} (d : List (String × α)) (k : String) (v : α) :
    plookup (pset d k v) k = some v := by
  induction d with
  | nil => simp [pset, plookup]
  | cons kv rest ih =>
      obtain ⟨k0, v0⟩ := kv
      by_cases h : k0 = k
      · simp [pset, h, plookup]
      · simp [pset, h, plookup, ih]

theorem plookup_pset_ne {α : Type} (d : List (String × α)) (k k' : String) (v : α)
    (h : k ≠ k') : plookup (pset d k v) k' = plookup d k' := by
  induction d with
  | nil => simp [pset, plookup, h]
  | cons kv rest ih =>
      obtain ⟨k0, v0⟩ := kv
      by_cases h0 : k0 = k
      · subst h0
        simp [pset, plookup, h]
      · simp [pset, h0, plookup, ih]

/-- Keys of an association list. -/
def pkeys {α : Type} (d : List (String × α)) : List String := d.map Prod.fst

theorem plookup_eq_none_of_not_mem {α : Type} (d : List (String × α)) (k : String)
    (h : k ∉ pkeys d) : plookup d k = none := by
  induction d with
  | nil => rfl
  | cons kv rest ih =>
      obtain ⟨k0, v0⟩ := kv
      simp only [pkeys, List.map_cons, List.mem_cons] at h
      push_neg at h
      simp only [plookup]
      rw [if_neg (fun hk => h.1 hk.symm), ih (by simpa [pkeys] using h.2)]

/-- Merging with `update` is lookup-wise: a key bound in the override wins,
any other key keeps its binding from the base.  The override is required
to have unique keys, as a parsed JSON object does. -/
theorem plookup_pupdate {α : Type} (d other : List (String × α)) (k : String)
    (hnd : (pkeys other).Nodup) :
    plookup (pupdate d other) k =
      match plookup other k with
      | some v => some v
      | none => plookup d k := by
  induction other generalizing d with
  | nil => simp [pupdate, plookup]
  | cons kv rest ih =>
      obtain ⟨k0, v0⟩ := kv
      simp only [pkeys, List.map_cons, List.nodup_cons] at hnd
      have hstep : pupdate d ((k0, v0) :: rest) = pupdate (pset d k0 v0) rest := by
        simp [pupdate]
      rw [hstep, ih (pset d k0 v0) (by simpa [pkeys] using hnd.2)]
      by_cases hk : k0 = k
      · subst hk
        have : plookup rest k0 = none :=
          plookup_eq_none_of_not_mem rest k0 (by simpa [pkeys] using hnd.1)
        simp [this, plookup, plookup_pset_self]
      · simp only [plookup, if_neg hk]
        cases hrest : plookup rest k
        · simp [plookup_pset_ne d k0 k v0 hk]
        · simp

/-- C7. Loading a configuration or state document that is missing,
unreadable, empty or otherwise unparsable, or not a JSON object, yields
exactly the default object; loading a JSON object yields the defaults
overridden, key by key, by the object's fields.  The embedding
`load_json_file` is a total function, so no failure is ever raised to the
caller. -/
theorem load_json_file_spec (fr : FileRead) (default : Dict) :
    ((fr = .missing ∨ fr = .ioError ∨ fr = .invalidJson ∨ fr = .jsonNonObject) →
      load_json_file fr default = default) ∧
    (∀ data : Dict, (pkeys data).Nodup → fr = .jsonObject data →
      load_json_file fr default = pupdate default data ∧
      ∀ k : String,
        (∀ v, plookup data k = some v → plookup (load_json_file fr default) k = some v) ∧
        (plookup data k = none → plookup (load_json_file fr default) k = plookup default k)) := by
  constructor
  · rintro (rfl | rfl | rfl | rfl) <;> rfl
  · rintro data hnd rfl
    refine ⟨rfl, ?_⟩
    intro k
    have h := plookup_pupdate default data k hnd
    constructor
    · intro v hv
      rw [hv] at h
      exact h
    · intro hv
      rw [hv] at h
      exact h

/-- Witness for `load_json_file_spec`: a corrupt file loads as the exact
default state document, and a well-formed object file overrides the
defaults while keeping missing keys at their defaults. -/
theorem load_json_file_spec_witness :
    load_json_file .invalidJson DEFAULT_STATE = DEFAULT_STATE ∧
    plookup (load_json_file (.jsonObject [("state", .s "work")]) DEFAULT_STATE) "state"
      = some (.s "work") ∧
    plookup (load_json_file (.jsonObject [("state", .s "work")]) DEFAULT_STATE) "message"
      = some (.s "") := by
  refine ⟨(load_json_file_spec .invalidJson DEFAULT_STATE).1 (by simp), ?_, ?_⟩
  · exact (((load_json_file_spec (.jsonObject [("state", .s "work")]) DEFAULT_STATE).2
      [("state", .s "work")] (by simp [pkeys]) rfl).2 "state").1 (.s "work") (by rfl)
  · have h := (((load_json_file_spec (.jsonObject [("state", .s "work")]) DEFAULT_STATE).2
      [("state", .s "work")] (by simp [pkeys]) rfl).2 "message").2 (by rfl)
    rw [h]
    rfl


/-! String primitives.  The Lean core versions of `trim`, `toLower` and
`toUpper` are defined through position-based loops that do not reduce in
the kernel, so the Python string methods used by the tools are embedded
structurally over the character list of the string.  Python's methods
are Unicode-aware; the embedding reproduces them exactly for every code
point up to U+00FF (the Basic Latin and Latin-1 Supplement blocks, which
include the non-ASCII letters such as "é" that matter to letter
validation), and leaves characters above U+00FF unchanged and
non-alphabetic, the declared boundary of the model. -/

/-- Whitespace test of Python `str.strip()` for code points up to U+00FF:
space, tab, newline, vertical tab, form feed, carriage return, the four
separator controls U+001C..U+001F, next line U+0085 and no-break space
U+00A0. -/
def pyIsSpace (c : Char) : Bool :=
  c = ' ' || c = '\t' || c = '\n' || c = '\r' || c = '\x0b' || c = '\x0c' ||
    decide (0x1C ≤ c.toNat ∧ c.toNat ≤ 0x1F) || decide (c.toNat = 0x85) ||
    decide (c.toNat = 0xA0)

/-- Embedding of Python `s.strip()`: drop leading and trailing
whitespace. -/
def pyStrip (s : String) : String :=
  ⟨((s.data.dropWhile pyIsSpace).reverse.dropWhile pyIsSpace).reverse⟩

/-- Lowercase mapping of Python `str.lower()` for code points up to
U+00FF: A-Z and the Latin-1 capitals U+00C0..U+00DE except the
multiplication sign U+00D7 shift down by 32; every other such code point
is unchanged. -/
def pyLowerChar (c : Char) : Char :=
  if 0x41 ≤ c.toNat ∧ c.toNat ≤ 0x5A then Char.ofNat (c.toNat + 32)
  else if (0xC0 ≤ c.toNat ∧ c.toNat ≤ 0xDE) ∧ c.toNat ≠ 0xD7 then Char.ofNat (c.toNat + 32)
  else c

/-- Embedding of Python `s.lower()`: map each character with
`pyLowerChar` (no lowercase expansion exists in the modelled range). -/
def pyLower (s : String) : String :=
  ⟨s.data.map pyLowerChar⟩

/-- Full uppercase mapping of Python `str.upper()` for code points up to
U+00FF, which can expand a character to several: sharp s U+00DF becomes
"SS", y-diaeresis U+00FF becomes U+0178, the micro sign U+00B5 becomes
Greek capital mu U+039C, a-z and the Latin-1 small letters
U+00E0..U+00FE except the division sign U+00F7 shift up by 32, and every
other code point is unchanged. -/
def pyUpperChar (c : Char) : List Char :=
  if c.toNat = 0xDF then ['S', 'S']
  else if c.toNat = 0xFF then [Char.ofNat 0x178]
  else if c.toNat = 0xB5 then [Char.ofNat 0x39C]
  else if 0x61 ≤ c.toNat ∧ c.toNat ≤ 0x7A then [Char.ofNat (c.toNat - 32)]
  else if (0xE0 ≤ c.toNat ∧ c.toNat ≤ 0xFE) ∧ c.toNat ≠ 0xF7 then [Char.ofNat (c.toNat - 32)]
  else [c]

/-- Embedding of Python `s.upper()`: concatenate the per-character
uppercase expansions. -/
def pyUpper (s : String) : String :=
  ⟨(s.data.map pyUpperChar).flatten⟩

/-- Alphabetic test of Python `str.isalpha()` for code points up to
U+00FF: A-Z, a-z, the feminine and masculine ordinal indicators U+00AA
and U+00BA, the micro sign U+00B5, and the Latin-1 letters
U+00C0..U+00FF except the multiplication and division signs U+00D7 and
U+00F7. -/
def pyIsAlphaChar (c : Char) : Bool :=
  c.isAlpha || decide (c.toNat = 0xAA) || decide (c.toNat = 0xB5) ||
    decide (c.toNat = 0xBA) ||
    decide ((0xC0 ≤ c.toNat ∧ c.toNat ≤ 0xFF) ∧ c.toNat ≠ 0xD7 ∧ c.toNat ≠ 0xF7)

/-! Status tool, scripts/status.py. -/

/-- VALID_STATES from scripts/status.py, in the order of the source
literal (a frozenset; only membership is ever queried directly). -/
def VALID_STATES : List String := ["idle", "work", "think", "alert", "sleep"]

/-- Alphabetically sorted view of VALID_STATES, the embedding of
`sorted(VALID_STATES)` used when printing the valid-state list. -/
def VALID_STATES_SORTED : List String := ["alert", "idle", "sleep", "think", "work"]

/-- Result of one run of `update_status` from scripts/status.py: the
resulting state file content, the lines printed to standard output and to
standard error, and the boolean the function returns (`main` turns it
into exit code 0 or 1). -/
structure StatusResult where
  fs : FileRead
  out : List String
  err : List String
  ok : Bool
deriving DecidableEq, Repr

/-- Embedding of `update_status(state, message)` from scripts/status.py.
The wall clock `time.time()` is the parameter `now`, the state file
content before the call is `fs0`, and `writeOk` tells whether the write
would succeed (on failure the code prints an error naming the exception;
the exception text itself is abstracted away). -/
def update_status (state message : String) (now : Int) (fs0 : FileRead) (writeOk : Bool) :
    StatusResult :=
  let st := pyStrip (pyLower state)
  let msg := pyStrip message
  if st ∈ VALID_STATES then
    let data : Dict := [("state", .s st), ("message", .s msg), ("updated", .n now)]
    if writeOk then
      { fs := .jsonObject data
        out := [if msg = "" then pyUpper st else pyUpper st ++ ": " ++ msg]
        err := []
        ok := true }
    else
      { fs := fs0
        out := []
        err := ["Error writing state file"]
        ok := false }
  else
    { fs := fs0
      out := []
      err := ["Error: Invalid state \x27" ++ st ++ "\x27",
              "Valid states: " ++ String.intercalate ", " VALID_STATES_SORTED]
      ok := false }

/-- Exit code of `main` in scripts/status.py after a completed
`update_status` call: 0 when the update returned True, 1 otherwise. -/
def status_exit_code (r : StatusResult) : Nat :=
  if r.ok then 0 else 1

/-- C4. An input state whose lowercased, stripped form is not one of the
five valid states makes the status tool print the invalid value and the
full valid-state list to the error stream, return failure (so `main`
exits 1), and leave the state file exactly as it was, with nothing
written. -/
theorem update_status_invalid (state message : String) (now : Int) (fs0 : FileRead)
    (writeOk : Bool) (h : pyStrip (pyLower state) ∉ VALID_STATES) :
    update_status state message now fs0 writeOk =
      { fs := fs0
        out := []
        err := ["Error: Invalid state \x27" ++ pyStrip (pyLower state) ++ "\x27",
                "Valid states: " ++ String.intercalate ", " VALID_STATES_SORTED]
        ok := false } ∧
    status_exit_code (update_status state message now fs0 writeOk) = 1 := by
  have hmain : update_status state message now fs0 writeOk =
      { fs := fs0
        out := []
        err := ["Error: Invalid state \x27" ++ pyStrip (pyLower state) ++ "\x27",
                "Valid states: " ++ String.intercalate ", " VALID_STATES_SORTED]
        ok := false } := by
    unfold update_status
    rw [if_neg h]
  exact ⟨hmain, by rw [hmain]; rfl⟩

/-- Witness for `update_status_invalid` at the spec's example input
"nonsense": no write happens, the error stream names the value and the
full valid list, and the exit code is 1. -/
theorem update_status_invalid_witness :
    update_status "nonsense" "" 1000 (.jsonObject [("state", .s "work")]) true =
      { fs := .jsonObject [("state", .s "work")]
        out := []
        err := ["Error: Invalid state \x27nonsense\x27",
                "Valid states: alert, idle, sleep, think, work"]
        ok := false } ∧
    status_exit_code
      (update_status "nonsense" "" 1000 (.jsonObject [("state", .s "work")]) true) = 1 := by
  have h := update_status_invalid "nonsense" "" 1000 (.jsonObject [("state", .s "work")]) true
    (by decide)
  refine ⟨?_, h.2⟩
  rw [h.1]
  decide

/-- C5. An input state whose lowercased, stripped form is one of the five
valid states makes the status tool (when the write succeeds) write
exactly the document with the lowercased state, the stripped message and
the current timestamp, print the uppercased state name (with the message
appended after ": " when the stripped message is nonempty), and return
success, so `main` exits 0. -/
theorem update_status_valid (state message : String) (now : Int) (fs0 : FileRead)
    (h : pyStrip (pyLower state) ∈ VALID_STATES) :
    update_status state message now fs0 true =
      { fs := .jsonObject [("state", .s (pyStrip (pyLower state))),
                           ("message", .s (pyStrip message)),
                           ("updated", .n now)]
        out := [if pyStrip message = "" then pyUpper (pyStrip (pyLower state))
                else pyUpper (pyStrip (pyLower state)) ++ ": " ++ pyStrip message]
        err := []
        ok := true } ∧
    status_exit_code (update_status state message now fs0 true) = 0 := by
  have hmain : update_status state message now fs0 true =
      { fs := .jsonObject [("state", .s (pyStrip (pyLower state))),
                           ("message", .s (pyStrip message)),
                           ("updated", .n now)]
        out := [if pyStrip message = "" then pyUpper (pyStrip (pyLower state))
                else pyUpper (pyStrip (pyLower state)) ++ ": " ++ pyStrip message]
        err := []
        ok := true } := by
    unfold update_status
    rw [if_pos h, if_pos rfl]
  exact ⟨hmain, by rw [hmain]; rfl⟩

/-- Witness for `update_status_valid` at the spec's example
`update("WORK", "Building X")`: the written document is
`{state: "work", message: "Building X", updated: now}`, the confirmation
line is "WORK: Building X", and the exit code is 0. -/
theorem update_status_valid_witness :
    update_status "WORK" "Building X" 1000 .missing true =
      { fs := .jsonObject [("state", .s "work"),
                           ("message", .s "Building X"),
                           ("updated", .n 1000)]
        out := ["WORK: Building X"]
        err := []
        ok := true } ∧
    status_exit_code (update_status "WORK" "Building X" 1000 .missing true) = 0 := by
  have h := update_status_valid "WORK" "Building X" 1000 .missing (by decide)
  refine ⟨?_, h.2⟩
  rw [h.1]
  decide

/-! Configuration tool, scripts/configure.py: letter validation. -/

/-- Embedding of `validate_letter(letter)` from scripts/configure.py: an
empty (falsy) input is rejected; otherwise the input is stripped and
uppercased and accepted exactly when it is a single alphabetic
character (Python `len(letter) == 1 and letter.isalpha()`). -/
def validate_letter (letter : String) : Option String :=
  if letter = "" then none
  else
    let l := pyUpper (pyStrip letter)
    if l.length = 1 ∧ l.data.all pyIsAlphaChar = true then some l else none

/-- Value of `Char.ofNat` at a valid code point. -/
theorem toNat_ofNat_of_valid (m : Nat) (hv : m.isValidChar) :
    (Char.ofNat m).toNat = m := by
  rw [Char.ofNat, dif_pos hv]
  rfl

/-- A lowercase character (in the sense of `Char.isLower`, the a-z test
used by `Char.isAlpha`) has its code point in 97..122. -/
theorem toNat_mem_of_isLower (c : Char) (h : c.isLower = true) :
    97 ≤ c.toNat ∧ c.toNat ≤ 122 := by
  rw [Char.isLower, Bool.and_eq_true, decide_eq_true_iff, decide_eq_true_iff] at h
  exact ⟨UInt32.le_toNat_of_le (by decide) h.1, UInt32.toNat_le_of_le (by decide) h.2⟩

/-- A character built at a valid code point outside 97..122 is not
lowercase. -/
theorem isLower_ofNat_eq_false (m : Nat) (hv : m.isValidChar) (h : m < 97 ∨ 122 < m) :
    (Char.ofNat m).isLower = false := by
  by_contra hc
  rw [Bool.not_eq_false] at hc
  have hm := toNat_mem_of_isLower _ hc
  rw [toNat_ofNat_of_valid m hv] at hm
  rcases h with h | h <;> omega

/-- No character produced by the uppercase mapping is an ASCII lowercase
letter. -/
theorem isLower_eq_false_of_mem_pyUpperChar (c0 c : Char) (h : c ∈ pyUpperChar c0) :
    c.isLower = false := by
  unfold pyUpperChar at h
  split at h
  · simp only [List.mem_cons, List.not_mem_nil, or_false] at h
    rcases h with rfl | rfl <;> decide
  · split at h
    · simp only [List.mem_singleton] at h
      subst h
      decide
    · split at h
      · simp only [List.mem_singleton] at h
        subst h
        decide
      · split at h
        · rename_i h4
          simp only [List.mem_singleton] at h
          subst h
          exact isLower_ofNat_eq_false _ (Or.inl (by omega)) (Or.inl (by omega))
        · split at h
          · rename_i h4 h5
            simp only [List.mem_singleton] at h
            subst h
            exact isLower_ofNat_eq_false _ (Or.inl (by omega)) (Or.inr (by omega))
          · rename_i h4 h5
            simp only [List.mem_singleton] at h
            subst h
            by_contra hc
            rw [Bool.not_eq_false] at hc
            have hm := toNat_mem_of_isLower _ hc
            exact h4 ⟨by omega, by omega⟩

/-- An alphabetic character of the model that lies in the ASCII range is
alphabetic in the A-Z/a-z sense. -/
theorem pyIsAlphaChar_ascii (c : Char) (h : pyIsAlphaChar c = true) (hle : c.toNat ≤ 127) :
    c.isAlpha = true := by
  simp only [pyIsAlphaChar, Bool.or_eq_true, decide_eq_true_iff] at h
  rcases h with ((((h | h) | h) | h) | h)
  · exact h
  · omega
  · omega
  · omega
  · exact absurd hle (by omega)

/-- Counterexample to C6 as stated: the non-ASCII letter "é" is accepted
by letter validation and returned as "É", a single alphabetic character
that is not an uppercase A-Z character, so not every accepted result is
an A-Z letter. -/
theorem validate_letter_nonascii_cex :
    validate_letter "é" = some "É" ∧
    "É".length = 1 ∧
    "É".data.all pyIsAlphaChar = true ∧
    "É".data.all Char.isUpper = false := by
  refine ⟨by decide, by decide, by decide, by decide⟩

/-- C6 amended.  Letter validation either rejects or returns the
stripped, uppercased input as a single alphabetic character; whenever
that character is ASCII it is an uppercase A-Z letter, but single
non-ASCII letters are accepted as well.  In particular "c" validates to
"C" while "cd" and "3" are rejected. -/
theorem validate_letter_spec_amended :
    (∀ s r : String, validate_letter s = some r →
      r = pyUpper (pyStrip s) ∧ r.length = 1 ∧ r.data.all pyIsAlphaChar = true) ∧
    (∀ s r : String, validate_letter s = some r → (∀ c ∈ r.data, c.toNat ≤ 127) →
      r.data.all Char.isUpper = true) ∧
    validate_letter "c" = some "C" ∧
    validate_letter "cd" = none ∧
    validate_letter "3" = none := by
  have hpart1 : ∀ s r : String, validate_letter s = some r →
      r = pyUpper (pyStrip s) ∧ r.length = 1 ∧ r.data.all pyIsAlphaChar = true := by
    intro s r h
    unfold validate_letter at h
    by_cases hs : s = ""
    · rw [if_pos hs] at h
      exact absurd h (by simp)
    · rw [if_neg hs] at h
      by_cases hcond : (pyUpper (pyStrip s)).length = 1 ∧
          (pyUpper (pyStrip s)).data.all pyIsAlphaChar = true
      · rw [if_pos hcond] at h
        obtain rfl : pyUpper (pyStrip s) = r := by injection h
        exact ⟨rfl, hcond.1, hcond.2⟩
      · rw [if_neg hcond] at h
        exact absurd h (by simp)
  refine ⟨hpart1, ?_, by decide, by decide, by decide⟩
  intro s r h hascii
  obtain ⟨hr, hlen, halpha⟩ := hpart1 s r h
  rw [List.all_eq_true] at halpha ⊢
  intro c hc
  have ha : c.isAlpha = true := pyIsAlphaChar_ascii c (halpha c hc) (hascii c hc)
  have hl : c.isLower = false := by
    have hc2 : c ∈ ((pyStrip s).data.map pyUpperChar).flatten := by
      rw [hr] at hc
      exact hc
    rw [List.mem_flatten] at hc2
    obtain ⟨l, hl0, hcl⟩ := hc2
    rw [List.mem_map] at hl0
    obtain ⟨c0, _, rfl⟩ := hl0
    exact isLower_eq_false_of_mem_pyUpperChar c0 c hcl
  rw [Char.isAlpha, Bool.or_eq_true] at ha
  rcases ha with ha | ha
  · exact ha
  · rw [hl] at ha
    exact absurd ha (by simp)

/-- Witness for `validate_letter_spec_amended`: the general clause applied
at the accepted non-ASCII input "é" (result "É", one alphabetic
character) and the ASCII clause applied at "c" (result "C", an uppercase
A-Z letter). -/
theorem validate_letter_spec_amended_witness :
    ("É" = pyUpper (pyStrip "é") ∧ "É".length = 1 ∧
      "É".data.all pyIsAlphaChar = true) ∧
    "C".data.all Char.isUpper = true :=
  ⟨validate_letter_spec_amended.1 "é" "É" (by decide),
   validate_letter_spec_amended.2.1 "c" "C" (by decide) (by decide)⟩

/-! Display renderer, scripts/display.py: the reload step of `draw`. -/

/-- Embedding of the auto-idle portion of the reload step in `draw`
(scripts/display.py, the body under `if new_state_mtime != state_mtime`):
with the freshly loaded state document `state_data`, read the configured
timeout with default 300, and when it is positive, the elapsed time since
the document's `updated` field (defaulting to `now`, hence elapsed 0)
exceeds the timeout, and the loaded state (default "idle") is neither
"idle" nor "sleep", set the state to "idle" and the message to "" and
hand the demoted document to `save_json_file`.  The first component is
the in-memory document after the step; the second is the document passed
to `save_json_file`, or `none` when no save is attempted.  The result of
`save_json_file` is discarded by the code, so a failed persist leaves the
in-memory demotion in effect; accordingly no success flag appears here. -/
def auto_idle_step (config state_data : Dict) (now : Int) : Dict × Option Dict :=
  let timeout := jnumD (plookup config "idle_timeout") 300
  if timeout > 0 then
    let elapsed := now - jnumD (plookup state_data "updated") now
    let current := jstrD (plookup state_data "state") "idle"
    if elapsed > timeout ∧ current ≠ "idle" ∧ current ≠ "sleep" then
      let sd := pset (pset state_data "state" (.s "idle")) "message" (.s "")
      (sd, some sd)
    else
      (state_data, none)
  else
    (state_data, none)

/-- C2. With a positive configured timeout and a loaded state that is
neither "idle" nor "sleep": when the elapsed time exceeds the timeout the
in-memory document is demoted to state "idle" with an empty message and
exactly that demoted document is handed to the persist call; when the
elapsed time does not exceed the timeout the document passes through
unchanged and nothing is persisted. -/
theorem auto_idle_step_spec (config sd : Dict) (now T u : Int) (st : String)
    (hT : plookup config "idle_timeout" = some (.n T)) (hTpos : T > 0)
    (hu : plookup sd "updated" = some (.n u))
    (hst : plookup sd "state" = some (.s st))
    (h1 : st ≠ "idle") (h2 : st ≠ "sleep") :
    (now - u > T →
      auto_idle_step config sd now =
        (pset (pset sd "state" (.s "idle")) "message" (.s ""),
         some (pset (pset sd "state" (.s "idle")) "message" (.s ""))) ∧
      plookup (auto_idle_step config sd now).1 "state" = some (.s "idle") ∧
      plookup (auto_idle_step config sd now).1 "message" = some (.s "")) ∧
    (¬(now - u > T) → auto_idle_step config sd now = (sd, none)) := by
  have hstep : auto_idle_step config sd now =
      if now - u > T ∧ st ≠ "idle" ∧ st ≠ "sleep" then
        (pset (pset sd "state" (.s "idle")) "message" (.s ""),
         some (pset (pset sd "state" (.s "idle")) "message" (.s "")))
      else (sd, none) := by
    unfold auto_idle_step
    rw [hT, hu, hst]
    simp only [jnumD, jstrD]
    rw [if_pos hTpos]
  constructor
  · intro helapsed
    rw [hstep, if_pos ⟨helapsed, h1, h2⟩]
    refine ⟨rfl, ?_, ?_⟩
    · show plookup (pset (pset sd "state" (.s "idle")) "message" (.s "")) "state" = _
      rw [plookup_pset_ne _ _ _ _ (by decide), plookup_pset_self]
    · exact plookup_pset_self _ _ _
  · intro helapsed
    rw [hstep, if_neg (fun hc => helapsed hc.1)]

/-- Witness for `auto_idle_step_spec` at the spec's example: timeout 300,
state "work" updated 400 seconds in the past demotes in memory and hands
the demoted document to the persist call; the same document 100 seconds
in the past passes through untouched with no persist. -/
theorem auto_idle_step_spec_witness :
    auto_idle_step [("idle_timeout", .n 300)]
        [("state", .s "work"), ("message", .s "m"), ("updated", .n 1000)] 1400 =
      ([("state", .s "idle"), ("message", .s ""), ("updated", .n 1000)],
       some [("state", .s "idle"), ("message", .s ""), ("updated", .n 1000)]) ∧
    auto_idle_step [("idle_timeout", .n 300)]
        [("state", .s "work"), ("message", .s "m"), ("updated", .n 1000)] 1100 =
      ([("state", .s "work"), ("message", .s "m"), ("updated", .n 1000)], none) := by
  have h1 := auto_idle_step_spec [("idle_timeout", .n 300)]
    [("state", .s "work"), ("message", .s "m"), ("updated", .n 1000)] 1400 300 1000 "work"
    (by decide) (by decide) (by decide) (by decide) (by decide) (by decide)
  have h2 := auto_idle_step_spec [("idle_timeout", .n 300)]
    [("state", .s "work"), ("message", .s "m"), ("updated", .n 1000)] 1100 300 1000 "work"
    (by decide) (by decide) (by decide) (by decide) (by decide) (by decide)
  constructor
  · rw [(h1.1 (by decide)).1]
    decide
  · exact h2.2 (by decide)

/-- Counterexample to C3 as stated: the auto-demotion write performed by
the display renderer at time 1500 hands `save_json_file` a document whose
`updated` field still holds the old timestamp 1000, not the timestamp of
the write. -/
theorem auto_idle_write_keeps_updated_cex :
    (auto_idle_step [("idle_timeout", .n 300)]
        [("state", .s "work"), ("message", .s "m"), ("updated", .n 1000)] 1500).2 =
      some [("state", .s "idle"), ("message", .s ""), ("updated", .n 1000)] ∧
    ¬ (∀ d, (auto_idle_step [("idle_timeout", .n 300)]
        [("state", .s "work"), ("message", .s "m"), ("updated", .n 1000)] 1500).2 = some d →
          plookup d "updated" = some (.n 1500)) := by
  constructor
  · decide
  · intro h
    have := h [("state", .s "idle"), ("message", .s ""), ("updated", .n 1000)] (by decide)
    exact absurd this (by decide)

/-- C3 amended. An explicit write by the status tool stamps `updated` with
the timestamp of that write; the auto-demotion write of the display
renderer instead preserves the document's previous `updated` value
unchanged. -/
theorem updated_field_on_write (state message : String) (now : Int) (fs0 : FileRead)
    (config sd : Dict) (u : Int)
    (hvalid : pyStrip (pyLower state) ∈ VALID_STATES)
    (hu : plookup sd "updated" = some (.n u)) :
    (∀ d, (update_status state message now fs0 true).fs = .jsonObject d →
      plookup d "updated" = some (.n now)) ∧
    (∀ d, (auto_idle_step config sd now).2 = some d →
      plookup d "updated" = some (.n u)) := by
  constructor
  · intro d hd
    rw [(update_status_valid state message now fs0 hvalid).1] at hd
    injection hd with hd
    subst hd
    rfl
  · intro d hd
    have hd2 : d = pset (pset sd "state" (.s "idle")) "message" (.s "") := by
      unfold auto_idle_step at hd
      by_cases ht : jnumD (plookup config "idle_timeout") 300 > 0
      · rw [if_pos ht] at hd
        by_cases hc : now - jnumD (plookup sd "updated") now >
              jnumD (plookup config "idle_timeout") 300 ∧
            jstrD (plookup sd "state") "idle" ≠ "idle" ∧
            jstrD (plookup sd "state") "idle" ≠ "sleep"
        · rw [if_pos hc] at hd
          injection hd with hd
          exact hd.symm
        · rw [if_neg hc] at hd
          exact absurd hd (by simp)
      · rw [if_neg ht] at hd
        exact absurd hd (by simp)
    subst hd2
    rw [plookup_pset_ne _ _ _ _ (by decide), plookup_pset_ne _ _ _ _ (by decide)]
    exact hu

/-- Witness for `updated_field_on_write`: a status write at time 1500
stamps `updated = 1500`, while the demotion write of a document last
updated at 1000 keeps `updated = 1000` even though it happens at time
1500. -/
theorem updated_field_on_write_witness :
    (∀ d, (update_status "work" "m" 1500 .missing true).fs = .jsonObject d →
      plookup d "updated" = some (.n 1500)) ∧
    (∀ d, (auto_idle_step [("idle_timeout", .n 300)]
        [("state", .s "work"), ("message", .s "m"), ("updated", .n 1000)] 1500).2 = some d →
      plookup d "updated" = some (.n 1000)) :=
  updated_field_on_write "work" "m" 1500 .missing [("idle_timeout", .n 300)]
    [("state", .s "work"), ("message", .s "m"), ("updated", .n 1000)] 1000
    (by decide) (by decide)

/-! Display renderer: auto-sleep window.  The copy of display.py under
scripts/ is the simpler of the two tool variants the specification
describes and contains no sleep-window code; the richer display variant
is not present under scripts/, so its rendering step is modelled from the
specification. -/

/-- Modelled from the spec: the richer display variant's auto-sleep
rendering step, absent from scripts/display.py.  Spec: "If an auto-sleep
window is configured and the current state is `idle`, compare the current
local hour against the window using wraparound semantics (`hour >=
sleep_start OR hour < sleep_end`); if inside the window, override the
*rendered* state to `sleep` for this frame only — this override is never
written back."  The first component is the state rendered for the frame;
the second is the activity document after the step, returned unchanged
because the override is display-only. -/
def render_state_with_sleep (sleep_start sleep_end hour : Int) (state_data : Dict) :
    String × Dict :=
  let st := jstrD (plookup state_data "state") "idle"
  (if st = "idle" ∧ (hour ≥ sleep_start ∨ hour < sleep_end) then "sleep" else st,
   state_data)

/-- C1. With an idle activity document, the frame renders "sleep" exactly
when the current hour lies inside the wraparound window and "idle"
otherwise, and in both cases the activity document is left exactly as it
was, so the override is never persisted. -/
theorem render_state_with_sleep_spec (sleep_start sleep_end hour : Int) (sd : Dict)
    (hst : plookup sd "state" = some (.s "idle")) :
    ((hour ≥ sleep_start ∨ hour < sleep_end) →
      (render_state_with_sleep sleep_start sleep_end hour sd).1 = "sleep") ∧
    (¬(hour ≥ sleep_start ∨ hour < sleep_end) →
      (render_state_with_sleep sleep_start sleep_end hour sd).1 = "idle") ∧
    (render_state_with_sleep sleep_start sleep_end hour sd).2 = sd := by
  have hself : jstrD (plookup sd "state") "idle" = "idle" := by
    rw [hst]
    rfl
  refine ⟨?_, ?_, rfl⟩
  · intro hwin
    show (if _ ∧ _ then _ else _) = _
    rw [if_pos ⟨hself, hwin⟩]
  · intro hwin
    show (if _ ∧ _ then _ else _) = _
    rw [if_neg (fun hc => hwin hc.2), hself]

/-- Witness for `render_state_with_sleep_spec` at the spec's example:
window 23..7 over an idle document renders "sleep" at hour 2 and "idle"
at hour 12, with the on-disk document untouched both times. -/
theorem render_state_with_sleep_spec_witness :
    (render_state_with_sleep 23 7 2 [("state", .s "idle"), ("message", .s "")]).1
      = "sleep" ∧
    (render_state_with_sleep 23 7 12 [("state", .s "idle"), ("message", .s "")]).1
      = "idle" ∧
    (render_state_with_sleep 23 7 2 [("state", .s "idle"), ("message", .s "")]).2
      = [("state", .s "idle"), ("message", .s "")] := by
  have h2 := render_state_with_sleep_spec 23 7 2 [("state", .s "idle"), ("message", .s "")]
    (by decide)
  have h12 := render_state_with_sleep_spec 23 7 12 [("state", .s "idle"), ("message", .s "")]
    (by decide)
  exact ⟨h2.1 (by decide), h12.2.1 (by decide), h2.2.2⟩

/-! Display renderer: per-frame appearance selection, scripts/display.py. -/

/-- STATE_COLORS from scripts/display.py: curses color-pair index per
state. -/
def STATE_COLORS : List (String × Nat) :=
  [("idle", 10), ("work", 11), ("think", 12), ("alert", 13), ("sleep", 14)]

/-- PULSE_SPEEDS from scripts/display.py: fraction of the pulse bar the
lit position advances per frame. -/
def PULSE_SPEEDS : List (String × ℚ) :=
  [("idle", 0.08), ("work", 0.15), ("think", 0.12), ("alert", 0.15), ("sleep", 0)]

/-- GLOW_SPEEDS from scripts/display.py: radians per frame fed to the
monogram brightness oscillator. -/
def GLOW_SPEEDS : List (String × ℚ) :=
  [("idle", 0.03), ("work", 0.06), ("think", 0.04), ("alert", 0.08), ("sleep", 0)]

/-- Embedding of `STATE_COLORS.get(state, 10)` in `draw`. -/
def accent_of (state : String) : Nat := pgetD STATE_COLORS state 10

/-- Embedding of `PULSE_SPEEDS.get(state, 0.08)` in `draw`. -/
def pulse_speed_of (state : String) : ℚ := pgetD PULSE_SPEEDS state 0.08

/-- Embedding of `GLOW_SPEEDS.get(state, 0.03)` in `draw`. -/
def glow_speed_of (state : String) : ℚ := pgetD GLOW_SPEEDS state 0.03

/-- Embedding of the monogram brightness selection in `draw`: the "sleep"
state holds the fixed dim gray pair 4; any other state alternates between
pairs 2 and 3 driven by the oscillator value `glow`, which the code
computes as `(sin(frame * glow_speed) + 1) / 2` (the transcendental
oscillator itself is abstracted as a parameter). -/
def monogram_brightness (state : String) (glow : ℚ) : Nat :=
  if state = "sleep" then 4 else if glow > 0.5 then 2 else 3

/-- Embedding of the pulse bar color selection in `draw`: muted gray pair
6 when asleep, the state accent otherwise. -/
def pulse_color_of (state : String) : Nat :=
  if state = "sleep" then 6 else accent_of state

/-- Embedding of `build_pulse(pos, width, sleeping)` from
scripts/display.py, producing the bar's character row. -/
def build_pulse (pos width : Nat) (sleeping : Bool) : List Char :=
  if sleeping then List.replicate width '─'
  else
    (List.range width).map fun i =>
      let dist := min (Int.natAbs ((i : Int) - pos)) (width - Int.natAbs ((i : Int) - pos))
      if dist = 0 then '█'
      else if dist = 1 then '▓'
      else if dist = 2 then '▒'
      else if dist = 3 then '░'
      else '─'

/-- Counterexample to C10 as stated: a document whose state "banana" is
outside the enumeration is not always left unwritten by the renderer's
frame — when it arrives with a stale `updated` (1000, read at time 1500
under the default timeout 300) the reload step demotes it and hands a
rewritten document to `save_json_file`. -/
theorem unknown_state_rewrite_cex :
    (auto_idle_step DEFAULT_CONFIG
        [("state", .s "banana"), ("message", .s "x"), ("updated", .n 1000)] 1500).2 =
      some [("state", .s "idle"), ("message", .s ""), ("updated", .n 1000)] ∧
    (auto_idle_step DEFAULT_CONFIG
        [("state", .s "banana"), ("message", .s "x"), ("updated", .n 1000)] 1500).2 ≠
      none := by
  constructor
  · decide
  · decide

/-- C10 amended. A state outside the five-value enumeration still renders:
the accent falls back to the idle color pair 10, the pulse speed to 0.08
and the glow speed to 0.03, the pulse bar and color take the non-sleep
branches, and the monogram glows between pairs 2 and 3 rather than
holding the sleep dim level; the frame performs no write provided the
auto-idle demotion does not fire (a stale out-of-enum document is demoted
and rewritten like any other non-idle, non-sleep state). -/
theorem unknown_state_renders (state : String) (glow : ℚ) (config sd : Dict)
    (now T u : Int)
    (h : state ∉ VALID_STATES)
    (hT : plookup config "idle_timeout" = some (.n T))
    (hu : plookup sd "updated" = some (.n u))
    (hnotstale : ¬(now - u > T)) :
    accent_of state = 10 ∧
    pulse_speed_of state = 0.08 ∧
    glow_speed_of state = 0.03 ∧
    (state == "sleep") = false ∧
    pulse_color_of state = 10 ∧
    (monogram_brightness state glow = 2 ∨ monogram_brightness state glow = 3) ∧
    (auto_idle_step config sd now).2 = none := by
  simp only [VALID_STATES, List.mem_cons, List.not_mem_nil, or_false] at h
  push_neg at h
  obtain ⟨hidle, hwork, hthink, halert, hsleep⟩ := h
  have hlook : plookup STATE_COLORS state = none := by
    simp only [STATE_COLORS, plookup]
    rw [if_neg (fun hc => hidle hc.symm), if_neg (fun hc => hwork hc.symm),
      if_neg (fun hc => hthink hc.symm), if_neg (fun hc => halert hc.symm),
      if_neg (fun hc => hsleep hc.symm)]
  have hlookp : plookup PULSE_SPEEDS state = none := by
    simp only [PULSE_SPEEDS, plookup]
    rw [if_neg (fun hc => hidle hc.symm), if_neg (fun hc => hwork hc.symm),
      if_neg (fun hc => hthink hc.symm), if_neg (fun hc => halert hc.symm),
      if_neg (fun hc => hsleep hc.symm)]
  have hlookg : plookup GLOW_SPEEDS state = none := by
    simp only [GLOW_SPEEDS, plookup]
    rw [if_neg (fun hc => hidle hc.symm), if_neg (fun hc => hwork hc.symm),
      if_neg (fun hc => hthink hc.symm), if_neg (fun hc => halert hc.symm),
      if_neg (fun hc => hsleep hc.symm)]
  have haccent : accent_of state = 10 := by
    rw [accent_of, pgetD, hlook]
    rfl
  refine ⟨haccent, ?_, ?_, ?_, ?_, ?_, ?_⟩
  · rw [pulse_speed_of, pgetD, hlookp]
    rfl
  · rw [glow_speed_of, pgetD, hlookg]
    rfl
  · exact beq_false_of_ne hsleep
  · rw [pulse_color_of, if_neg hsleep]
    exact haccent
  · rw [monogram_brightness, if_neg hsleep]
    by_cases hg : glow > 0.5
    · exact Or.inl (by rw [if_pos hg])
    · exact Or.inr (by rw [if_neg hg])
  · unfold auto_idle_step
    rw [hT, hu]
    simp only [jnumD]
    by_cases ht : T > 0
    · rw [if_pos ht, if_neg (fun hc => hnotstale hc.1)]
    · rw [if_neg ht]

/-- Witness for `unknown_state_renders` at the concrete state "banana"
read fresh (updated 1000, now 1100, timeout 300): every fallback value is
as claimed and no write occurs. -/
theorem unknown_state_renders_witness :
    accent_of "banana" = 10 ∧
    pulse_speed_of "banana" = 0.08 ∧
    glow_speed_of "banana" = 0.03 ∧
    ("banana" == "sleep") = false ∧
    pulse_color_of "banana" = 10 ∧
    (monogram_brightness "banana" 1 = 2 ∨ monogram_brightness "banana" 1 = 3) ∧
    (auto_idle_step DEFAULT_CONFIG
      [("state", .s "banana"), ("message", .s "x"), ("updated", .n 1000)] 1100).2 = none :=
  unknown_state_renders "banana" 1 DEFAULT_CONFIG
    [("state", .s "banana"), ("message", .s "x"), ("updated", .n 1000)] 1100 300 1000
    (by decide) (by decide) (by decide) (by decide)

/-! Configuration tool, scripts/configure.py: persistence and
auto-detection. -/

/-- Embedding of `load_config()` from scripts/configure.py, which
duplicates the `load_json_file` logic against CONFIG_FILE and
DEFAULT_CONFIG. -/
def load_config (fr : FileRead) : Dict :=
  load_json_file fr DEFAULT_CONFIG

/-- Embedding of a successful `save_config(config)` from
scripts/configure.py: the file afterwards holds exactly the saved object
(a failed write instead prints an error and returns False to the caller,
which exits 1; the claims below concern the successful path). -/
def save_config (config : Dict) : FileRead :=
  FileRead.jsonObject config

/-- Modelled from the spec: the richer configure variant's default
configuration, which extends the DEFAULT_CONFIG present in
scripts/configure.py with the auto-sleep window fields.  Spec:
"`sleep_start`, `sleep_end`: integer hours in `[0,23]` defining a nightly
auto-sleep window ...; defaults `23` and `7`."  The variant itself is not
present under scripts/. -/
def DEFAULT_CONFIG_FULL : Dict :=
  [("letter", .s "A"), ("name", .s "AGENT"), ("idle_timeout", .n 300),
   ("sleep_start", .n 23), ("sleep_end", .n 7)]

/-- Modelled from the spec: `load_config()` of the richer configure
variant, the shared-store load against its extended defaults. -/
def load_config_full (fr : FileRead) : Dict :=
  load_json_file fr DEFAULT_CONFIG_FULL

/-- C8. Saving a configuration holding exactly letter "B", name "BOT" and
idle_timeout 120 and reloading it through the shared store yields the
defaults overridden by exactly those three fields: the reloaded object is
the default object with those three values replaced, and sleep_start and
sleep_end still hold their defaults 23 and 7. -/
theorem save_load_round_trip :
    load_config_full (save_config
        [("letter", .s "B"), ("name", .s "BOT"), ("idle_timeout", .n 120)]) =
      [("letter", .s "B"), ("name", .s "BOT"), ("idle_timeout", .n 120),
       ("sleep_start", .n 23), ("sleep_end", .n 7)] ∧
    load_config_full (save_config
        [("letter", .s "B"), ("name", .s "BOT"), ("idle_timeout", .n 120)]) =
      pupdate DEFAULT_CONFIG_FULL
        [("letter", .s "B"), ("name", .s "BOT"), ("idle_timeout", .n 120)] ∧
    plookup (load_config_full (save_config
        [("letter", .s "B"), ("name", .s "BOT"), ("idle_timeout", .n 120)]))
      "sleep_start" = some (.n 23) ∧
    plookup (load_config_full (save_config
        [("letter", .s "B"), ("name", .s "BOT"), ("idle_timeout", .n 120)]))
      "sleep_end" = some (.n 7) := by
  refine ⟨by decide, by decide, by decide, by decide⟩

/-- Command-line arguments of scripts/configure.py relevant to the
auto-detection branch: `--auto` plus the optional `--letter`, `--name`
and `--timeout` values (argparse yields None for an absent option). -/
structure ConfArgs where
  auto : Bool
  letter : Option String
  name : Option String
  timeout : Option Int
deriving DecidableEq, Repr

/-- Python truthiness of an optional string argument: None and the empty
string are falsy. -/
def truthyS : Option String → Bool
  | none => false
  | some s => !(s = "")

/-- Python truthiness of an optional integer argument: None and 0 are
falsy. -/
def truthyI : Option Int → Bool
  | none => false
  | some n => !(n = 0)

/-- Minimal embedding of a parsed YAML value as read by
`get_clawdbot_agent_name`: a string, a mapping, or anything else. -/
inductive YValue where
  | s (v : String)
  | dict (entries : List (String × YValue))
  | other

/-- Lookup in a YAML mapping, first binding wins. -/
def ylookup : List (String × YValue) → String → Option YValue
  | [], _ => none
  | (k, v) :: rest, key => if k = key then some v else ylookup rest key

/-- Embedding of the per-file body of `get_clawdbot_agent_name` from
scripts/configure.py: `none` stands for a file whose open or parse raised
(the code continues to the next path).  A non-mapping document is
skipped.  In a mapping, a nonempty string under `agent.name` wins (the
code requires the value to be truthy and a string); otherwise a string
top-level `name` is returned, even when empty (the code only checks its
type there). -/
def try_yaml_doc (v : Option YValue) : Option String :=
  match v with
  | none => none
  | some (.dict entries) =>
      let fromAgent : Option String :=
        match ylookup entries "agent" with
        | some (.dict aentries) =>
            match ylookup aentries "name" with
            | some (.s nm) => if nm = "" then none else some nm
            | _ => none
        | _ => none
      match fromAgent with
      | some nm => some nm
      | none =>
          match ylookup entries "name" with
          | some (.s nm) => some nm
          | _ => none
  | some _ => none

/-- Embedding of `get_clawdbot_agent_name()` from scripts/configure.py:
None when the YAML parser cannot be imported, otherwise the first
existing config path whose document yields a name. -/
def get_clawdbot_agent_name (yamlAvailable : Bool) (docs : List (Option YValue)) :
    Option String :=
  if yamlAvailable then docs.findSome? try_yaml_doc else none

/-- Embedding of the failed-auto-detection branch of `main` in
scripts/configure.py (`if args.auto:` with `agent_name` falsy): the code
prints the failure notice and the PyYAML hint, then exits 1 exactly when
`any([args.letter, args.name, args.timeout])` is false, i.e. when none of
the three values is truthy in Python's sense. -/
def auto_fail_exits (args : ConfArgs) : Bool :=
  !(truthyS args.letter || truthyS args.name || truthyI args.timeout)

/-- Lines printed by the failed-auto-detection branch, from
scripts/configure.py. -/
def auto_fail_output : List String :=
  ["Could not auto-detect agent name from clawdbot config",
   "Tip: Install PyYAML (pip install pyyaml) if not installed"]

/-- C9 at its failing input: with auto-detection failing (here: PyYAML
importable but no config path exists) and `--timeout 0` supplied — a
documented value, "0 to disable" — the tool still exits 1, because the
truthiness test treats the supplied 0 like an absent flag, even though
the later `args.timeout is not None` check shows 0 is meant to be
applied.  The printed failure notice does include the PyYAML hint. -/
theorem auto_fail_exit_timeout_zero :
    get_clawdbot_agent_name true [] = none ∧
    auto_fail_exits { auto := true, letter := none, name := none, timeout := some 0 }
      = true ∧
    ({ auto := true, letter := none, name := none, timeout := some 0 } : ConfArgs).timeout
      ≠ none ∧
    auto_fail_output = ["Could not auto-detect agent name from clawdbot config",
      "Tip: Install PyYAML (pip install pyyaml) if not installed"] := by
  refine ⟨rfl, rfl, by decide, rfl⟩
